import Mathlib

/-!
# Verification of the museum-artwork OCR enrichment pipeline

A shallow embedding, in Lean 4, of the core pipeline of the repository
(`apps/core/services/...`): the basic artwork extractor, the web-search and
content-fetch enrichers, the video-script generator, the orchestrator that
sequences them, and the two-tier (rule-based / AI) text classifier.

Modelling conventions, used throughout:

* Python strings are Lean `String`s; every Python `str` operation used by the
  code (`strip`, `lower`, `in`, `find`, `count`, slicing, `split('\n')`,
  `startswith`/`endswith`, `isdigit`) is re-implemented structurally over
  `List Char` (the `py...` helpers below) so that all definitions reduce
  inside the kernel.  `strip`/whitespace follow Lean's `Char.isWhitespace`
  (space, tab, CR, LF); `isdigit` and `lower` are modelled on ASCII digits
  and letters — every string constant the embedded code compares against is
  unaffected by the difference.
* Python float confidences are exact decimal literals combined only by `+`,
  `min` and comparisons; they are modelled as natural numbers in hundredths
  (`0.9` ↦ `90`, `0.75` ↦ `75`, a keyword weight `0.2` ↦ `20`).  No
  comparison made by the code sits on a value where binary-float rounding
  and exact decimal arithmetic disagree, so the scaling is faithful.
* Remote collaborators (the Vertex-AI Gemini service, Brave search via MCP,
  the fetch MCP) are modelled as oracle functions the definitions are
  parameterised by; an oracle describes what the remote world answers
  (including raising).  Python exceptions are the `PyErr` sum: the
  pipeline's own `ArtworkTitleNotFoundError` is distinguished from every
  other exception, mirroring the `except ArtworkTitleNotFoundError` /
  `except Exception` pairs in the source.  Functions additionally return the
  list of remote calls they issued (`RemoteCall`), so "no search call is
  made" style properties are statable.
* `datetime.now()` timestamps, logging, and the mutable `self.stats`
  counters are not modelled: no branch of the embedded code reads them.
-/

/-! ## Python string primitives -/

/-- Leading- and trailing-whitespace strip on the character list. -/
def pyStripL (l : List Char) : List Char :=
  ((l.dropWhile Char.isWhitespace).reverse.dropWhile Char.isWhitespace).reverse

/-- Python `s.strip()`. -/
def pyStrip (s : String) : String := ⟨pyStripL s.data⟩

/-- Python `len(s)` (code points). -/
def pyLen (s : String) : Nat := s.data.length

/-- Substring containment on character lists: Python `needle in hay`. -/
def pyInL (needle : List Char) : List Char → Bool
  | [] => needle.isEmpty
  | c :: rest => needle.isPrefixOf (c :: rest) || pyInL needle rest

/-- Python `needle in hay` for strings. -/
def pyIn (needle hay : String) : Bool := pyInL needle.data hay.data

/-- Index of the first occurrence of `needle`: Python `hay.find(needle)`,
with `none` for Python's `-1`. -/
def pyFindL (needle : List Char) : List Char → Option Nat
  | [] => if needle.isEmpty then some 0 else none
  | c :: rest =>
    if needle.isPrefixOf (c :: rest) then some 0
    else (pyFindL needle rest).map (· + 1)

/-- Python `hay.find(needle)` on strings (`none` = `-1`). -/
def pyFind (hay needle : String) : Option Nat := pyFindL needle.data hay.data

/-- Fuel-indexed worker for non-overlapping occurrence counting. -/
def pyCountL (fuel : Nat) (needle : List Char) (hay : List Char) : Nat :=
  match fuel, hay with
  | 0, _ => 0
  | _, [] => 0
  | f + 1, c :: rest =>
    if !needle.isEmpty && needle.isPrefixOf (c :: rest) then
      1 + pyCountL f needle ((c :: rest).drop needle.length)
    else
      pyCountL f needle rest

/-- Python `hay.count(needle)`: non-overlapping occurrences (the code never
counts the empty string). -/
def pyCount (hay needle : String) : Nat := pyCountL hay.data.length needle.data hay.data

/-- Python slice `l[a:b]` with a possibly negative upper bound. -/
def pySliceL (l : List Char) (a : Nat) (b : Int) : List Char :=
  let bb : Int := if b < 0 then (l.length : Int) + b else b
  (l.take bb.toNat).drop a

/-- Python `s[a:b]` (the code only slices with `a ≥ 0`). -/
def pySlice (s : String) (a : Nat) (b : Int) : String := ⟨pySliceL s.data a b⟩

/-- Python `s[:n]` for `n ≥ 0`. -/
def pyTake (s : String) (n : Nat) : String := ⟨s.data.take n⟩

/-- Python `s.lower()` (ASCII letters; every denylist constant compared
case-insensitively by the code is ASCII or Korean, Korean being unaffected). -/
def pyLower (s : String) : String := ⟨s.data.map Char.toLower⟩

/-- Python `s.upper()` (ASCII letters). -/
def pyUpper (s : String) : String := ⟨s.data.map Char.toUpper⟩

/-- Python `s.startswith(p)`. -/
def pyStartsWith (s p : String) : Bool := p.data.isPrefixOf s.data

/-- Python `s.endswith(p)`. -/
def pyEndsWith (s p : String) : Bool := p.data.reverse.isPrefixOf s.data.reverse

/-- Python `s.isdigit()` (ASCII digits): nonempty and all digits. -/
def pyIsDigit (s : String) : Bool := !s.data.isEmpty && s.data.all Char.isDigit

/-- Splitter for Python `s.split('\n')`. -/
def pySplitLinesL : List Char → List (List Char)
  | [] => [[]]
  | c :: rest =>
    match pySplitLinesL rest with
    | [] => [[c]]
    | h :: t => if c = '\n' then [] :: h :: t else (c :: h) :: t

/-- Python `s.split('\n')`. -/
def pySplitLines (s : String) : List String := (pySplitLinesL s.data).map (⟨·⟩)

/-- Python `sep.join(xs)`. -/
def pyJoin (sep : String) : List String → String
  | [] => ""
  | [x] => x
  | x :: y :: rest => x ++ sep ++ pyJoin sep (y :: rest)

/-- Python truthiness of an optional string (`None` and `""` are falsy). -/
def pyTruthyOptStr : Option String → Bool
  | none => false
  | some s => !s.data.isEmpty

/-- Python truthiness of a plain string. -/
def pyTruthyStr (s : String) : Bool := !s.data.isEmpty


/-! ## Entities (`apps/core/services/entities/...`)

The structures declare exactly the fields of the source dataclasses
(timestamp fields omitted: nothing reads them).  Two dataclasses are stale
relative to their construction sites: `WebSearchInfo` is constructed with a
`description=` keyword it does not declare, and `ArtworkExtractedInfo` with
a `video_script=` keyword absent from its four fields — in Python each such
construction raises `TypeError`, and the functions that execute those
constructions model exactly that (see `enrich_with_web_search` and
`extract_and_enrich`). -/

/-- `ArtworkBasicInfo` (dataclass, with its sentinel defaults). -/
structure ArtworkBasicInfo where
  title : String := "작품명 확인 불가"
  artist : String := "작가 정보 없음"
  year : String := "제작연도 미상"
  description : String := "작품 설명 없음"
deriving DecidableEq, Repr

/-- `ExtractionMetadata` (confidence in hundredths: `0.9` ↦ `90`). -/
structure ExtractionMetadata where
  confidence : Nat := 0
  extraction_method : String := "gemini_ai"
  raw_response : String := ""
  success : Bool := true
deriving DecidableEq, Repr

/-- One entry of a Brave search's `results` list: either a bare URL string
or a result object whose `url` field may be missing. -/
inductive SearchItem where
  | urlString (s : String)
  | resultObj (url : Option String)
deriving DecidableEq, Repr

/-- The search-result dictionary the enricher passes around
(`{"success": ..., "error": ..., "results": [...]}`). -/
structure SearchResults where
  success : Bool
  error : Option String := none
  results : List SearchItem := []
deriving DecidableEq, Repr

/-- `WebSearchInfo` (`entities/web_search_info.py`): exactly the dataclass
fields — there is no `description` field, so the enricher's
`WebSearchInfo(description=...)` constructions raise `TypeError`. -/
structure WebSearchInfo where
  performed : Bool := false
  search_results : Option SearchResults := none
  enriched_description : Option String := none
deriving DecidableEq, Repr

/-- One per-URL result dictionary of the fetch service. -/
structure FetchResult where
  url : String
  success : Bool
  title : String := ""
  content : String := ""
  text_length : Nat := 0
  error : String := ""
deriving DecidableEq, Repr

/-- `ContentFetchInfo`. -/
structure ContentFetchInfo where
  performed : Bool := false
  fetch_results : Option (List FetchResult) := none
  content_enriched_description : Option String := none
deriving DecidableEq, Repr

/-- `VideoScriptInfo` (script length in whole seconds). -/
structure VideoScriptInfo where
  script_content : String := ""
  script_length : Nat := 0
  generation_method : String := "none"
  success : Bool := false
  error_message : Option String := none
deriving DecidableEq, Repr

/-- `ArtworkExtractedInfo` (`entities/artwork_extracted_info.py`): the
four-field composite — there is no `video_script` field, so the
orchestrator's `ArtworkExtractedInfo(video_script=...)` constructions raise
`TypeError`. -/
structure ArtworkExtractedInfo where
  basic_info : ArtworkBasicInfo
  metadata : ExtractionMetadata
  web_search : WebSearchInfo
  content_fetch : ContentFetchInfo
deriving DecidableEq, Repr

/-! ## Exceptions, oracles and the remote-call log -/

/-- A Python exception as the pipeline distinguishes them:
`ArtworkTitleNotFoundError` versus every other `Exception`. -/
inductive PyErr where
  | titleNotFound (msg : String)
  | other (msg : String)
deriving DecidableEq, Repr

/-- One remote invocation, recorded in issue order. -/
inductive RemoteCall where
  | gemini (prompt : String)
  | braveSearch (query : String)
  | fetchUrl (url : String)
  | aiClassify (text : String)
deriving DecidableEq, Repr

/-- What the raw Vertex-AI endpoint does for one `generate_content` call:
raise, answer with no candidates, or answer with candidate text. -/
inductive GeminiRaw where
  | raiseExn (msg : String)
  | noCandidates
  | candidates (text : String)
deriving DecidableEq, Repr

/-- `GeminiService.generate_content`
(`externals/gemini_service.py`): catches every exception and returns
`None`; returns `None` when the response has no candidates; otherwise the
first candidate's text, stripped.  Total for every oracle. -/
def GeminiService_generate_content (g : String → GeminiRaw) (prompt : String) :
    Option String :=
  match g prompt with
  | .raiseExn _ => none
  | .noCandidates => none
  | .candidates t => some (pyStrip t)

/-- What one raw HTTP attempt of `BraveSearchService._call_mcp_api` does:
`requests.exceptions.RequestException` (connection error, timeout, bad
status), any other exception (e.g. a JSON decode error), or a parsed
response body. -/
inductive BraveHttpOutcome where
  | requestException (msg : String)
  | otherException (msg : String)
  | respOk (results : List SearchItem)
deriving DecidableEq, Repr

/-- `BraveSearchService._call_mcp_api` (`externals/brave_service.py`
lines 115–166) over a trace assigning an outcome to each would-be attempt.
The body issues exactly one `requests.post` and converts both exception
classes to `None`; the second component counts the attempts made. -/
def BraveSearchService_call_mcp_api (attempts : Nat → BraveHttpOutcome) :
    Option (List SearchItem) × Nat :=
  (match attempts 0 with
   | .respOk r => some r
   | .requestException _ => none
   | .otherException _ => none, 1)

/-- The `content` payload of one fetch-MCP `fetch_txt` tool call, after the
dict/list/text-attribute shape analysis of `fetch_url_mcp_async` (the three
parseable shapes all reduce to a title and a text; everything else is the
"parse failure" case). -/
inductive FetchContent where
  | parsed (title : String) (text : String)
  | unparsed
deriving DecidableEq, Repr

/-- What the remote side does for one fetch of one URL: the connection (or
session set-up) raises, the tool call raises, or the tool returns content. -/
inductive FetchRaw where
  | connError (msg : String)
  | toolError (msg : String)
  | toolOk (content : FetchContent)
deriving DecidableEq, Repr

/-- `FetchService.fetch_url_mcp_async` (`externals/fetch_service.py`
lines 28–108): every failure class is converted into a `success=False`
result dictionary; nothing propagates. -/
def FetchService_fetch_url_mcp_async (url : String) (o : FetchRaw) : FetchResult :=
  match o with
  | .connError m =>
    { url := url, success := false, error := "연결 오류: " ++ m }
  | .toolError m =>
    { url := url, success := false, error := "fetch_txt tool 실패: " ++ m }
  | .toolOk .unparsed =>
    { url := url, success := false, error := "본문 파싱 실패" }
  | .toolOk (.parsed t x) =>
    { url := url, success := true, title := t, content := x, text_length := pyLen x }

/-- `fetch_url_mcp_async` over an attempt trace, counting the attempts made
(the body issues exactly one tool call). -/
def FetchService_fetch_url_attempts (url : String) (attempts : Nat → FetchRaw) :
    FetchResult × Nat :=
  (FetchService_fetch_url_mcp_async url (attempts 0), 1)

/-! ## `ScriptAnalyzer` (`script_service.py`): the rule-based classifier -/

/-- `TextType` (enum). -/
inductive TextType where
  | artwork_description
  | artwork_title
  | exhibition_info
  | artist_info
  | other
deriving DecidableEq, Repr

/-- `TextType.value` strings. -/
def TextType_value : TextType → String
  | .artwork_description => "artwork_description"
  | .artwork_title => "artwork_title"
  | .exhibition_info => "exhibition_info"
  | .artist_info => "artist_info"
  | .other => "other"

/-- The metadata dictionary attached to an `AnalysisResult`: either the
source/stage tags the hybrid analyzer writes, or the per-category score
table of `_pattern_analysis`.  (Purely diagnostic numeric entries such as
`original_confidence` are not modelled; no code path reads the metadata.) -/
inductive AnalysisMeta where
  | tags (source : String) (stage : String)
  | scoreTable (desc : Nat) (title : Nat) (exhibition : Nat) (artist : Nat) (othr : Nat)
deriving DecidableEq, Repr

/-- `AnalysisResult` (dataclass; confidence in hundredths). -/
structure AnalysisResult where
  text_type : TextType
  confidence : Nat
  is_description : Bool
  reasoning : String
  metadata : Option AnalysisMeta := none
deriving DecidableEq, Repr

/-- `self.description_keywords`. -/
def description_keywords : List String :=
  ["작품 해설", "작품 설명", "설명", "해설", "소개", "배경",
   "의미", "표현", "기법", "특징", "주제", "상징",
   "Description", "About", "Overview"]

/-- `self.title_keywords`. -/
def title_keywords : List String :=
  ["작품명", "제목", "작품", "Title", "타이틀"]

/-- `self.exhibition_keywords`. -/
def exhibition_keywords : List String :=
  ["전시", "기간", "장소", "주최", "후원", "관람", "입장",
   "Exhibition", "Gallery", "Museum", "년", "월", "일"]

/-- `self.artist_keywords`. -/
def artist_keywords : List String :=
  ["작가", "화가", "예술가", "아티스트", "출생", "활동",
   "Artist", "Painter", "작가 소개", "프로필"]

/-- Number of keywords of `kws` contained in `t`
(`sum(1 for keyword in kws if keyword in text)`). -/
def keywordHits (kws : List String) (t : String) : Nat :=
  (kws.filter (fun k => pyIn k t)).length

/-- The character class of `r'^[\d\-\.\s\/\(\)]+$'`. -/
def numericDateSymbolChar (c : Char) : Bool :=
  c.isDigit || c = '-' || c = '.' || c = '/' || c = '(' || c = ')' || c.isWhitespace

/-- `re.match(r'^[\d\-\.\s\/\(\)]+$', text)`: the whole text is drawn from
the class (the `$`-before-final-newline subtlety is absorbed: `\n` is in the
class). -/
def matchesNumericDateSymbol (t : String) : Bool :=
  !t.data.isEmpty && t.data.all numericDateSymbolChar

/-- First element of a character list equals `c`. -/
def headIs (l : List Char) (c : Char) : Bool :=
  match l with
  | x :: _ => x = c
  | [] => false

/-- `re.search(r'[0-9]{4}년|[0-9]{1,2}월|[0-9]{1,2}일', text)`: some digit
is directly followed by `월` or `일`, or four consecutive digits are
directly followed by `년` (existence of a match is equivalent). -/
def containsDateL : List Char → Bool
  | [] => false
  | c :: rest =>
    (c.isDigit &&
      ((match rest with
        | m :: _ => m = '월' || m = '일'
        | [] => false) ||
       (match rest with
        | d2 :: d3 :: d4 :: rest2 => d2.isDigit && d3.isDigit && d4.isDigit && headIs rest2 '년'
        | _ => false))) ||
    containsDateL rest

/-- Date-pattern test on a string. -/
def containsDatePattern (t : String) : Bool := containsDateL t.data

/-- A line contains two `"` characters (the `["""].*["""]` alternative:
the class is three copies of the ASCII quote). -/
def lineHasQuotePair (l : List Char) : Bool :=
  2 ≤ (l.filter (· = '"')).length

/-- A line contains `o` followed (strictly later) by `c`. -/
def lineHasOpenClose (l : List Char) (o c : Char) : Bool :=
  match l.dropWhile (· ≠ o) with
  | [] => false
  | _ :: rest => rest.contains c

/-- `re.search(r'["""].*["""]|《.*》|「.*」', text)`: `.` does not cross
newlines, so some line must contain a quote pair. -/
def containsQuotePattern (t : String) : Bool :=
  (pySplitLinesL t.data).any fun l =>
    lineHasQuotePair l || lineHasOpenClose l '《' '》' || lineHasOpenClose l '「' '」'

/-- Korean sentence-ending count of `_quick_rule_filter` (the list there
also holds `죠.` and the three English endings). -/
def quickSentenceCount (t : String) : Nat :=
  (["다.", "요.", "음.", "임.", "니다.", "습니다.", "죠."].map (pyCount t)).sum +
  ([". ", "! ", "? "].map (pyCount t)).sum

/-- Korean sentence-ending count of `_pattern_analysis` (six endings, no
English). -/
def patternSentenceCount (t : String) : Nat :=
  (["다.", "요.", "음.", "임.", "니다.", "습니다."].map (pyCount t)).sum

/-- Render a hundredths value the way Python's `f"{x:.2f}"` renders the
corresponding float literal (`60` ↦ `"0.60"`). -/
def fmtHundredths (h : Nat) : String :=
  Nat.repr (h / 100) ++ "." ++ (if h % 100 < 10 then "0" else "") ++ Nat.repr (h % 100)

/-- `ScriptAnalyzer._quick_rule_filter` (on the already-stripped text). -/
def ScriptAnalyzer_quick_rule_filter (t : String) : AnalysisResult :=
  if pyLen t < 15 then
    { text_type := .other, confidence := 90, is_description := false,
      reasoning := "텍스트가 너무 짧음 (15자 미만)" }
  else if matchesNumericDateSymbol t then
    { text_type := .exhibition_info, confidence := 95, is_description := false,
      reasoning := "숫자/날짜/기호만 포함" }
  else if pyLen t ≤ 30 && !(t.data.any (fun c => c = '.' || c = '!' || c = '?')) &&
      (["작품명:", "Title:", "\"", "\x27", "《", "》"].any (fun ind => pyIn ind t)) then
    { text_type := .artwork_title, confidence := 90, is_description := false,
      reasoning := "짧은 제목 형태" }
  else if description_keywords.any (fun k => pyIn k t) then
    { text_type := .artwork_description, confidence := 95, is_description := true,
      reasoning := "설명 키워드 포함" }
  else if pyLen t > 100 && 2 ≤ quickSentenceCount t then
    { text_type := .artwork_description, confidence := 85, is_description := true,
      reasoning := "긴 텍스트(" ++ Nat.repr (pyLen t) ++ "자) + 복수 문장(" ++
        Nat.repr (quickSentenceCount t) ++ "개)" }
  else
    { text_type := .other, confidence := 50, is_description := false,
      reasoning := "패턴 분석 필요" }

/-- `_pattern_analysis`: the per-category score (hundredths), category by
category, exactly as the score dictionary is accumulated. -/
def pattern_score (t : String) : TextType → Nat
  | .artwork_description =>
    keywordHits description_keywords t * 20 +
    (if pyLen t > 80 then 30 else 0) +
    (if 2 ≤ patternSentenceCount t then 30 else 0)
  | .artwork_title =>
    keywordHits title_keywords t * 20 +
    (if pyLen t > 80 then 0 else if pyLen t < 40 then 20 else 0) +
    (if 2 ≤ patternSentenceCount t then 0 else if patternSentenceCount t = 0 then 20 else 0) +
    (if containsQuotePattern t then 30 else 0)
  | .exhibition_info =>
    keywordHits exhibition_keywords t * 20 +
    (if containsDatePattern t then 40 else 0)
  | .artist_info => keywordHits artist_keywords t * 20
  | .other => 0

/-- `max(confidence_scores, key=confidence_scores.get)`: the first key (in
the dictionary's insertion order DESCRIPTION, TITLE, EXHIBITION, ARTIST,
OTHER) attaining the maximal score. -/
def pattern_best_type (t : String) : TextType :=
  let s := pattern_score t
  if s .artwork_title ≤ s .artwork_description ∧ s .exhibition_info ≤ s .artwork_description ∧
      s .artist_info ≤ s .artwork_description ∧ s .other ≤ s .artwork_description then
    .artwork_description
  else if s .exhibition_info ≤ s .artwork_title ∧ s .artist_info ≤ s .artwork_title ∧
      s .other ≤ s .artwork_title then
    .artwork_title
  else if s .artist_info ≤ s .exhibition_info ∧ s .other ≤ s .exhibition_info then
    .exhibition_info
  else if s .other ≤ s .artist_info then
    .artist_info
  else
    .other

/-- The maximal score. -/
def pattern_max_score (t : String) : Nat :=
  let s := pattern_score t
  max (s .artwork_description)
    (max (s .artwork_title) (max (s .exhibition_info) (max (s .artist_info) (s .other))))

/-- `ScriptAnalyzer._pattern_analysis` (on the already-stripped text):
pick the best-scoring category; when the best score is below `0.3`, override
it by the length-based default with confidence `0.6`; cap at `0.9`. -/
def ScriptAnalyzer_pattern_analysis (t : String) : AnalysisResult :=
  let best := pattern_best_type t
  let mx := pattern_max_score t
  let bestF := if mx < 30 then (if pyLen t > 50 then TextType.artwork_description else .other) else best
  let mxF := if mx < 30 then 60 else mx
  { text_type := bestF,
    confidence := min mxF 90,
    is_description := bestF = .artwork_description,
    reasoning := "패턴 분석 결과: " ++ TextType_value bestF ++ " (점수: " ++ fmtHundredths mxF ++ ")",
    metadata := some (.scoreTable (pattern_score t .artwork_description)
      (pattern_score t .artwork_title) (pattern_score t .exhibition_info)
      (pattern_score t .artist_info) (pattern_score t .other)) }

/-- `ScriptAnalyzer.analyze_text`. -/
def ScriptAnalyzer_analyze_text (text : String) : AnalysisResult :=
  if !pyTruthyStr text || pyStrip text = "" then
    { text_type := .other, confidence := 100, is_description := false, reasoning := "빈 텍스트" }
  else
    let t := pyStrip text
    let quick := ScriptAnalyzer_quick_rule_filter t
    if 80 ≤ quick.confidence then quick
    else ScriptAnalyzer_pattern_analysis t

/-! ## `HybridAnalyzer` (`hybrid_analyzer.py`) -/

/-- `HybridAnalyzer.analyze_text` and `_ai_analysis`, over the availability
flag set in `__init__`, the AI yes/no oracle (`GeminiService.is_description`
of `services/gemini_service.py`, which may itself raise), and the
`confidence_threshold` (hundredths; default 75).  Returns the result and the
remote calls issued.  (The AI-path reasoning string interpolates the rule
confidence with `:.2f`; metadata updates overwrite the dictionary with its
source/stage tags.) -/
def HybridAnalyzer_analyze_text (gemini_available : Bool)
    (aiO : String → Except PyErr Bool) (confidence_threshold : Nat) (text : String) :
    AnalysisResult × List RemoteCall :=
  if !pyTruthyStr text || pyStrip text = "" then
    ({ text_type := (ScriptAnalyzer_analyze_text "").text_type, confidence := 100,
       is_description := false, reasoning := "빈 텍스트",
       metadata := some (.tags "rule_based" "input_validation") }, [])
  else
    let rule := ScriptAnalyzer_analyze_text text
    if confidence_threshold ≤ rule.confidence then
      ({ rule with metadata := some (.tags "rule_based" "confident_result") }, [])
    else if gemini_available then
      match aiO text with
      | .ok b =>
        ({ text_type := rule.text_type, confidence := 95, is_description := b,
           reasoning := "하이브리드 분석: 규칙 기반 신뢰도 " ++ fmtHundredths rule.confidence ++
             " → AI 분석 적용",
           metadata := some (.tags "hybrid_ai" "ai_analysis") }, [.aiClassify text])
      | .error _ =>
        ({ rule with metadata := some (.tags "rule_based_fallback" "ai_error") }, [.aiClassify text])
    else
      ({ rule with metadata := some (.tags "rule_based_fallback" "ai_unavailable") }, [])

/-! ## `BasicArtworkExtractor` (`usecases/basic_artwork_extractor.py`) -/

/-- `hay.find(needle, start)`: first occurrence at or after `start`. -/
def pyFindFrom (hay needle : String) (start : Nat) : Option Nat :=
  (pyFindL needle.data (hay.data.drop start)).map (· + start)

/-- A JSON value as the parser's field loop distinguishes them: a string, or
a non-string (only its truthiness and the fact that calling `.strip()` on it
raises matter). -/
inductive JVal where
  | jstr (s : String)
  | jother (truthy : Bool)
deriving DecidableEq, Repr

/-- A parsed JSON object (`json.loads` result when it is a dict). -/
def JsonObj := List (String × JVal)

/-- The four normalized fields `_parse_gemini_response` returns. -/
structure ParsedFields where
  title : String
  artist : String
  year : String
  description : String
deriving DecidableEq, Repr

/-- `self.default_values`. -/
def default_title : String := "작품명 확인 불가"

/-- `self.default_values["artist"]`. -/
def default_artist : String := "작가 정보 없음"

/-- `self.default_values["year"]`. -/
def default_year : String := "제작연도 미상"

/-- `self.default_values["description"]`. -/
def default_description : String := "작품 설명 없음"

/-- The field-normalization step of `_parse_gemini_response`: missing,
falsy, whitespace-only and denylisted (`"null"`, `"없음"`, `"미상"`,
`"불명"`, case-insensitively) values become the default; a truthy
non-string raises (`.strip()` on it) and the whole parse returns `None`. -/
def normalizeField (v : Option JVal) (dflt : String) : Option String :=
  match v with
  | none => some dflt
  | some (.jother truthy) => if truthy then none else some dflt
  | some (.jstr s) =>
    if !pyTruthyStr s || pyStrip s = "" then some dflt
    else if ["null", "없음", "미상", "불명"].contains (pyLower (pyStrip s)) then some dflt
    else some (pyStrip s)

/-- The code-fence stripping of `_parse_gemini_response`: the text between
the first ```` ```json ```` (or ```` ``` ````) marker and the next
```` ``` ````, Python slicing semantics included (`find` returning `-1`
slices to the second-to-last character). -/
def stripCodeFence (response_text : String) : String :=
  if pyIn "```json" response_text then
    let start := (pyFind response_text "```json").getD 0 + 7
    let e := pyFindFrom response_text "```" start
    pyStrip (pySlice response_text start (match e with | some v => (v : Int) | none => -1))
  else if pyIn "```" response_text then
    let start := (pyFind response_text "```").getD 0 + 3
    let e := pyFindFrom response_text "```" start
    pyStrip (pySlice response_text start (match e with | some v => (v : Int) | none => -1))
  else pyStrip response_text

/-- `BasicArtworkExtractor._parse_gemini_response`, over a `json.loads`
oracle (`none` covers both a `JSONDecodeError` and a non-dict result, which
the field loop turns into an exception — either way the method returns
`None`). -/
def parse_gemini_response (jsonLoads : String → Option JsonObj) (response_text : String) :
    Option ParsedFields :=
  match jsonLoads (stripCodeFence response_text) with
  | none => none
  | some obj =>
    match normalizeField (obj.lookup "title") default_title,
        normalizeField (obj.lookup "artist") default_artist,
        normalizeField (obj.lookup "year") default_year,
        normalizeField (obj.lookup "description") default_description with
    | some t, some a, some y, some d =>
      some { title := t, artist := a, year := y, description := d }
    | _, _, _, _ => none

/-- `BasicArtworkExtractor._is_invalid_title`. -/
def is_invalid_title (title : String) : Bool :=
  if !pyTruthyStr title || pyStrip title = "" then true
  else if title = default_title then true
  else if (["정보 없음", "정보없음", "불명", "미상", "제목없음", "무제",
      "???", "---", "unknown", "없음", "확인불가", "불분명"].map pyLower).contains
      (pyLower (pyStrip title)) then true
  else if pyLen (pyStrip title) < 2 then true
  else if pyIsDigit (pyStrip title) then true
  else false

/-- A regex word character (`\w`) for the `\b` boundaries of the year
pattern: ASCII alphanumerics, underscore, and Hangul (syllables and
compatibility jamo) — the scripts the OCR pipeline feeds through it. -/
def pyWordChar (c : Char) : Bool :=
  c.isAlphanum || c = '_' ||
  (0xAC00 ≤ c.toNat && c.toNat ≤ 0xD7A3) || (0x3130 ≤ c.toNat && c.toNat ≤ 0x318F)

/-- End-of-match `\b`: the next character (if any) is not a word
character. -/
def endBoundaryOk (rest : List Char) : Bool :=
  match rest with
  | [] => true
  | c :: _ => !pyWordChar c

/-- The ways `\d{4}(?:-\d{4})?년?` and `\d{1,2}세기` can match at the head
of `cs`, as (matched text, remainder) pairs in the regex engine's
backtracking preference order (greedy optionals first, first alternative
first). -/
def yearAltCandidates (cs : List Char) : List (List Char × List Char) :=
  (match cs with
   | d1 :: d2 :: d3 :: d4 :: rest =>
     if d1.isDigit && d2.isDigit && d3.isDigit && d4.isDigit then
       let base := [d1, d2, d3, d4]
       let withExt : List (List Char × List Char) :=
         match rest with
         | '-' :: e1 :: e2 :: e3 :: e4 :: rest2 =>
           if e1.isDigit && e2.isDigit && e3.isDigit && e4.isDigit then
             [(base ++ ['-', e1, e2, e3, e4], rest2)]
           else []
         | _ => []
       (withExt ++ [(base, rest)]).flatMap fun (m, r) =>
         (match r with
          | '년' :: r2 => [(m ++ ['년'], r2)]
          | _ => []) ++ [(m, r)]
     else []
   | _ => []) ++
  (match cs with
   | a :: b :: '세' :: '기' :: rest =>
     if a.isDigit && b.isDigit then [(a :: b :: '세' :: '기' :: [], rest)] else []
   | _ => []) ++
  (match cs with
   | a :: '세' :: '기' :: rest =>
     if a.isDigit then [(a :: '세' :: '기' :: [], rest)] else []
   | _ => [])

/-- `re.search(r'\b(\d{4}(?:-\d{4})?년?|\d{1,2}세기)\b', line).group(0)`:
leftmost position first; at one position, the first candidate whose tail
satisfies the closing `\b` (the opening `\b` holds because every match
starts with a digit and the preceding character is not a word character). -/
def searchYearL (prevWord : Bool) : List Char → Option (List Char)
  | [] => none
  | c :: rest =>
    let here :=
      if prevWord then none
      else ((yearAltCandidates (c :: rest)).filter fun (_, r) => endBoundaryOk r).head?.map (·.1)
    match here with
    | some m => some m
    | none => searchYearL (pyWordChar c) rest

/-- Year search on one line. -/
def searchYear (line : String) : Option String :=
  (searchYearL false line.data).map (⟨·⟩)

/-- `BasicArtworkExtractor._create_fallback_result`: rule-based extraction
from the OCR text plus the fixed low-confidence metadata. -/
def create_fallback_result (ocr_text : String) (error_reason : String) :
    ArtworkBasicInfo × ExtractionMetadata :=
  let lines := ((pySplitLines ocr_text).map pyStrip).filter (fun l => l ≠ "")
  let fallback_title :=
    match lines with
    | first_line :: _ =>
      if pyLen first_line ≤ 50 &&
          !(first_line.data.any (fun c => c = '.' || c = '!' || c = '?')) then
        first_line
      else default_title
    | [] => default_title
  let fallback_year :=
    match (lines.filterMap searchYear).head? with
    | some y => y
    | none => default_year
  let fallback_description :=
    match lines.filter (fun l => pyLen l > 30 &&
        (pyIn "다." l || pyIn "이다" l || pyIn "된다" l)) with
    | d :: _ => d
    | [] => default_description
  ({ title := fallback_title, artist := default_artist, year := fallback_year,
     description := fallback_description },
   { confidence := 30, extraction_method := "fallback_rules (" ++ error_reason ++ ")",
     raw_response := "", success := false })

/-- `BasicArtworkExtractor._build_extraction_prompt` (the constant Korean
instruction text is abbreviated to its frame; the interpolation of the OCR
text between the triple-quote markers is kept — no claim inspects the
prompt's constant part, it only keys the Gemini oracle). -/
def build_extraction_prompt (ocr_text : String) : String :=
  "다음은 박물관이나 미술관에서 촬영한 작품 설명판의 OCR 텍스트입니다.\n" ++
  "OCR로 인식된 텍스트는 어색하거나 오타가 있을 수 있으므로, 자연스럽고 정확한 한국어로 다듬어서 작품 정보를 추출해주세요.\n\nOCR 텍스트:\n\"\"\"\n" ++
  ocr_text ++
  "\n\"\"\"\n\n추출 및 다듬기 요구사항: (작품명/작가명/제작연도/작품설명을 다듬어 추출)\n" ++
  "응답은 반드시 아래 JSON 형식으로만 답변하세요:\n\n\x7b\n  \"title\": \"다듬어진 작품명 또는 정보 없음\",\n  \"artist\": \"다듬어진 작가명 또는 정보 없음\",\n  \"year\": \"정리된 제작연도 또는 정보 없음\", \n  \"description\": \"다듬어진 작품 설명 또는 정보 없음\"\n\x7d"

/-- The `ArtworkTitleNotFoundError` message raised when a title cannot be
confirmed (interpolates the head of the OCR text). -/
def titleNotFoundMsg (ocr_text : String) : String :=
  "작품명을 확인할 수 없어 저장할 수 없습니다. OCR 텍스트: " ++ pyTake ocr_text 50 ++ "..."

/-- `BasicArtworkExtractor.extract_basic_info`, over the Gemini
`generate_content` collaborator (which may in general raise — the deployed
`GeminiService` never does) and the `json.loads` oracle.  Returns the
result-or-exception and the remote calls issued. -/
def extract_basic_info (gemini : String → Except PyErr (Option String))
    (jsonLoads : String → Option JsonObj) (ocr_text : String) :
    Except PyErr (ArtworkBasicInfo × ExtractionMetadata) × List RemoteCall :=
  if !pyTruthyStr ocr_text || pyStrip ocr_text = "" then
    (.error (.titleNotFound "빈 OCR 텍스트로 작품명을 확인할 수 없습니다"), [])
  else
    let prompt := build_extraction_prompt ocr_text
    match gemini prompt with
    | .error (.titleNotFound m) =>
      -- `except ArtworkTitleNotFoundError: raise`
      (.error (.titleNotFound m), [.gemini prompt])
    | .error (.other m) =>
      -- `except Exception as e`: rule-based fallback, then the title gate
      let (basic_info, metadata) :=
        create_fallback_result ocr_text ("gemini_error: " ++ pyTake m 50)
      if is_invalid_title basic_info.title then
        (.error (.titleNotFound (titleNotFoundMsg ocr_text)), [.gemini prompt])
      else
        (.ok (basic_info, metadata), [.gemini prompt])
    | .ok raw_response =>
      match raw_response with
      | some rtext =>
        if pyTruthyStr rtext then
          match parse_gemini_response jsonLoads rtext with
          | some extracted_data =>
            let basic_info : ArtworkBasicInfo :=
              { title := extracted_data.title, artist := extracted_data.artist,
                year := extracted_data.year, description := extracted_data.description }
            let metadata : ExtractionMetadata :=
              { confidence := 90, extraction_method := "gemini_ai_success",
                raw_response := pyTake rtext 200, success := true }
            if is_invalid_title basic_info.title then
              (.error (.titleNotFound (titleNotFoundMsg ocr_text)), [.gemini prompt])
            else
              (.ok (basic_info, metadata), [.gemini prompt])
          | none =>
            -- parse failed: fall through to the fallback with its gate
            let (basic_info, metadata) :=
              create_fallback_result ocr_text "gemini_response_failed"
            if is_invalid_title basic_info.title then
              (.error (.titleNotFound (titleNotFoundMsg ocr_text)), [.gemini prompt])
            else
              (.ok (basic_info, metadata), [.gemini prompt])
        else
          let (basic_info, metadata) :=
            create_fallback_result ocr_text "gemini_response_failed"
          if is_invalid_title basic_info.title then
            (.error (.titleNotFound (titleNotFoundMsg ocr_text)), [.gemini prompt])
          else
            (.ok (basic_info, metadata), [.gemini prompt])
      | none =>
        let (basic_info, metadata) :=
          create_fallback_result ocr_text "gemini_response_failed"
        if is_invalid_title basic_info.title then
          (.error (.titleNotFound (titleNotFoundMsg ocr_text)), [.gemini prompt])
        else
          (.ok (basic_info, metadata), [.gemini prompt])

/-! ## `FetchService` URL handling (`externals/fetch_service.py`) -/

/-- `urlparse(url).netloc`: the authority part after `://`, up to the next
`/`, `?` or `#` (empty when the URL has no scheme separator). -/
def pyNetloc (url : String) : String :=
  match pyFind url "://" with
  | none => ""
  | some i => ⟨(url.data.drop (i + 3)).takeWhile (fun c => c ≠ '/' && c ≠ '?' && c ≠ '#')⟩

/-- `FetchService._normalize_url`: default the scheme to `https`, then keep
the URL when it parses with a scheme and a non-empty authority. -/
def normalize_url (url : String) : Option String :=
  if !pyTruthyStr url then none
  else
    let u := if !(pyStartsWith url "http://" || pyStartsWith url "https://") then
        "https://" ++ url
      else url
    if pyNetloc u ≠ "" then some u else none

/-- `FetchService._is_valid_url`. -/
def is_valid_url (url : String) : Bool :=
  (pyFind url "://").isSome && pyNetloc url ≠ ""

/-- Worker for `_filter_urls` carrying the `seen_urls` set. -/
def filter_urls_go : List String → List String → List String
  | [], _ => []
  | url :: rest, seen =>
    if !pyTruthyStr url || pyStrip url = "" then filter_urls_go rest seen
    else
      match normalize_url (pyStrip url) with
      | none => filter_urls_go rest seen
      | some nu =>
        if seen.contains nu then filter_urls_go rest seen
        else if is_valid_url nu then nu :: filter_urls_go rest (nu :: seen)
        else filter_urls_go rest seen

/-- `FetchService._filter_urls`: normalization, deduplication, validity. -/
def filter_urls (urls : List String) : List String := filter_urls_go urls []

/-- The score `_prioritize_artwork_urls` assigns one URL. -/
def url_score (url : String) : Nat :=
  let domain := pyLower (pyNetloc url)
  (if ["museum", "gallery", "art", "문화재", "박물관", "미술관"].any
      (fun k => pyIn k domain) then 100 else 0) +
  (if pyEndsWith domain ".kr" then 50 else 0) +
  (if pyStartsWith url "https://" then 20 else 0) +
  (if ["news", "blog", "naver", "tistory", "daum"].any (fun k => pyIn k domain) then 30 else 0) +
  10

/-- Stable descending insertion (a new element goes after existing elements
of greater-or-equal score), modelling Python's stable
`sort(key=..., reverse=True)`. -/
def insertDescBy (score : String → Nat) (x : String) : List String → List String
  | [] => [x]
  | y :: ys => if score x ≤ score y then y :: insertDescBy score x ys else x :: y :: ys

/-- Stable descending sort by score. -/
def sortDescStable (score : String → Nat) (l : List String) : List String :=
  l.foldl (fun acc x => insertDescBy score x acc) []

/-- `FetchService._prioritize_artwork_urls`. -/
def prioritize_artwork_urls (urls : List String) (max_urls : Nat) : List String :=
  (sortDescStable url_score urls).take max_urls

/-- `FetchService.fetch_urls`: filter, then fetch each surviving URL (the
bounded-concurrency gather re-associates results with their URL in order;
per-URL failures are already absorbed by `fetch_url_mcp_async`). -/
def fetch_urls (fetchO : String → FetchRaw) (urls : List String) :
    List FetchResult × List RemoteCall :=
  let valid_urls := filter_urls urls
  (valid_urls.map (fun u => FetchService_fetch_url_mcp_async u (fetchO u)),
   valid_urls.map .fetchUrl)

/-- `FetchService.fetch_artwork_urls`: URL extraction from the search-result
dictionary (bare strings win; otherwise truthy `url` fields), priority
ordering, truncation, then the fetch fan-out. -/
def fetch_artwork_urls (fetchO : String → FetchRaw) (sr : SearchResults) (max_urls : Nat) :
    List FetchResult × List RemoteCall :=
  if sr.results = [] then ([], [])
  else
    let strUrls := sr.results.filterMap fun it =>
      match it with
      | .urlString s => some s
      | .resultObj _ => none
    let urls := if strUrls ≠ [] then strUrls
      else sr.results.filterMap fun it =>
        match it with
        | .resultObj (some u) => if pyTruthyStr u then some u else none
        | _ => none
    fetch_urls fetchO (prioritize_artwork_urls urls max_urls)

/-- The snippet entries one fetch result contributes in
`FetchService.extract_content_snippets` (nothing for a failed or empty
fetch; title line, 500-character-capped body line, source line, separator
otherwise). -/
def snippet_entries (r : FetchResult) : List String :=
  if !r.success || !pyTruthyStr r.content then []
  else
    (if pyTruthyStr r.title then ["제목: " ++ r.title] else []) ++
    ["내용: " ++ (if pyLen r.content > 500 then pyTake r.content 500 ++ "..." else r.content),
     "출처: " ++ r.url, "---"]

/-- `FetchService.extract_content_snippets`. -/
def extract_content_snippets (fetch_results : List FetchResult) (max_snippets : Nat) :
    List String :=
  (fetch_results.flatMap snippet_entries).take max_snippets

/-! ## `WebSearchEnricher` (`usecases/web_search_enricher.py`) -/

/-- The message of any `PyErr` (`str(e)`). -/
def pyErrMsg : PyErr → String
  | .titleNotFound m => m
  | .other m => m

/-- The placeholder description. -/
def infoNotFound : String := "정보를 찾을 수 없습니다."

/-- `WebSearchEnricher._has_valid_description`. -/
def has_valid_description (description : String) : Bool :=
  if !pyTruthyStr description then false
  else
    let d := pyStrip description
    if !pyTruthyStr d || d = "작품 설명 없음" then false
    else if pyLen d < 10 then false
    else true

/-- The Gemini typo/clean-up prompt of the valid-description path. -/
def cleanup_prompt (description : String) : String :=
  "아래는 OCR로 추출한 작품 설명입니다. 오타, 띄어쓰기, 문장 부호, 어색한 표현을 자연스럽게 보정해 주세요.\n---\n" ++
  description ++ "\n---\n보정된 설명만 출력하세요."

/-- The Gemini summarization prompt over the fetched bodies (each body
capped to 1000 characters, numbered from 1). -/
def summary_prompt (title : String) (all_contents : List String) : String :=
  "다음은 \x27" ++ title ++
  "\x27 작품에 대한 다양한 웹 본문입니다.\n이 정보들을 참고하여, 관람객이 이해하기 쉽고 풍부한 작품 설명을 500자 이내로 써주세요.\n\n" ++
  String.join (all_contents.enum.map fun (i, content) =>
    "[자료 " ++ Nat.repr (i + 1) ++ "]\n" ++ pyTake content 1000 ++ "\n\n")

/-- The `TypeError` every `WebSearchInfo(description=...)` construction
raises: the dataclass declares no `description` field. -/
def typeErrorDescriptionMsg : String :=
  "TypeError: __init__() got an unexpected keyword argument \x27description\x27"

/-- The `TypeError` raised by `await`ing the synchronous content enricher's
return value (orchestrator line 70). -/
def typeErrorAwaitMsg : String :=
  "TypeError: object ContentFetchInfo can\x27t be used in \x27await\x27 expression"

/-- The `TypeError` raised by `ArtworkExtractedInfo(video_script=...)`: the
dataclass declares no `video_script` field. -/
def typeErrorVideoScriptMsg : String :=
  "TypeError: __init__() got an unexpected keyword argument \x27video_script\x27"

/-- `WebSearchEnricher.enrich_with_web_search`, over the availability flag
(`self.brave_service` truthiness), the `brave_search` collaborator, the
Gemini `generate_content` collaborator and the per-URL fetch oracle.

The `brave_search` collaborator the repository imports is not part of the
sources; per the spec's collaborator contract (§6,
`search(query, count) -> list | failure`) it is modelled as an oracle that
may raise or return the search dictionary — either behaviour is produced
inside the enricher's `try`.

Every construction site of the source passes `description=` to the
four-field `WebSearchInfo` dataclass, so every path raises `TypeError`:
the two sites outside the `try` (the no-service branch and the
valid-description clean-up branch) raise directly, and the in-`try` sites
are caught by the `except` handler — whose own construction raises the same
`TypeError`, uncaught.  The function therefore never returns a
`WebSearchInfo`; what distinguishes the paths is the list of remote calls
issued before the failure (a clean-up collaborator that itself raised would
propagate its own exception instead, being outside the `try`). -/
def enrich_with_web_search (brave_available : Bool)
    (brave : String → Nat → Except PyErr SearchResults)
    (gemini : String → Except PyErr (Option String))
    (fetchO : String → FetchRaw)
    (basic_info : ArtworkBasicInfo) (museum_name : Option String) :
    Except PyErr WebSearchInfo × List RemoteCall :=
  if !brave_available then
    -- `WebSearchInfo(performed=False, ..., description=...)`: TypeError
    (.error (.other typeErrorDescriptionMsg), [])
  else if has_valid_description basic_info.description then
    let prompt := cleanup_prompt basic_info.description
    match gemini prompt with
    | .error e => (.error e, [.gemini prompt])
    | .ok _ =>
      -- `enriched_description` is computed, then the construction raises
      (.error (.other typeErrorDescriptionMsg), [.gemini prompt])
  else
    let query := pyStrip (basic_info.title ++ " " ++ museum_name.getD "")
    match brave query 5 with
    | .error _ =>
      -- caught by the handler; the handler's construction raises TypeError
      (.error (.other typeErrorDescriptionMsg), [.braveSearch query])
    | .ok search_results =>
      let urls := search_results.results.filterMap fun item =>
        match item with
        | .resultObj (some u) => if pyTruthyStr u then some u else none
        | .resultObj none => none
        | .urlString s => some s
      if urls ≠ [] then
        let (fetch_results, flog) := fetch_urls fetchO urls
        let all_contents := fetch_results.filterMap fun r =>
          if r.success && pyTruthyStr r.content then some r.content else none
        if all_contents ≠ [] then
          let prompt := summary_prompt basic_info.title all_contents
          match gemini prompt with
          | .error _ =>
            -- caught by the handler; its construction raises TypeError
            (.error (.other typeErrorDescriptionMsg), [.braveSearch query] ++ flog ++ [.gemini prompt])
          | .ok _ =>
            -- the in-`try` construction raises TypeError, caught, re-raised
            (.error (.other typeErrorDescriptionMsg), [.braveSearch query] ++ flog ++ [.gemini prompt])
        else
          (.error (.other typeErrorDescriptionMsg), [.braveSearch query] ++ flog)
      else
        (.error (.other typeErrorDescriptionMsg), [.braveSearch query])

/-! ## `ContentFetchEnricher` (`usecases/content_fetch_enricher.py`) -/

/-- `ContentFetchEnricher._enrich_description_with_content_data` (the
original description is the possibly-absent `enriched_description`). -/
def enrich_description_with_content_data (original_description : Option String)
    (content_snippets : List String) : Option String :=
  if content_snippets = [] then original_description
  else
    let content_summary := pyJoin "\n" (content_snippets.take 5)
    let enriched :=
      match original_description with
      | some o =>
        if pyTruthyStr o && o ≠ "작품 설명 없음" then
          o ++ "\n\n[본문 내용 추가 정보]\n" ++ content_summary
        else "[본문 내용 정보]\n" ++ content_summary
      | none => "[본문 내용 정보]\n" ++ content_summary
    some (if pyLen enriched > 3000 then pyTake enriched 2800 ++ "\n... (추가 정보 생략)"
          else enriched)

/-- `ContentFetchEnricher.enrich_with_content_fetch`, over the service
availability flag (`self.fetch_service` is `None` when construction failed)
and the per-URL fetch oracle.  The embedded fetch layer is total, so the
`except` branch (`performed=False` on an escaped exception) is
unreachable here. -/
def enrich_with_content_fetch (fetch_available : Bool) (fetchO : String → FetchRaw)
    (web_search_info : WebSearchInfo) : ContentFetchInfo × List RemoteCall :=
  if !fetch_available then
    ({ performed := false, fetch_results := none, content_enriched_description := none }, [])
  else
    match web_search_info.search_results, web_search_info.performed with
    | some sr, true =>
      let (fetch_results, flog) := fetch_artwork_urls fetchO sr 3
      if fetch_results ≠ [] && fetch_results.any (·.success) then
        let content_snippets := extract_content_snippets fetch_results 5
        let content_enriched_description := enrich_description_with_content_data
          web_search_info.enriched_description content_snippets
        ({ performed := true, fetch_results := some fetch_results,
           content_enriched_description := content_enriched_description }, flog)
      else
        ({ performed := true, fetch_results := some fetch_results,
           content_enriched_description := none }, flog)
    | _, _ =>
      ({ performed := false, fetch_results := none, content_enriched_description := none }, [])

/-! ## `VideoScriptGenerator` (`usecases/video_script_generator.py`) -/

/-- `VideoScriptGenerator._build_script_prompt` (constant narration
requirements abbreviated; the title/artist/year/description interpolation
and the description priority content-fetch > web-search > basic are kept). -/
def build_script_prompt (artwork_info : ArtworkExtractedInfo) : String :=
  let description :=
    if pyTruthyOptStr artwork_info.content_fetch.content_enriched_description then
      (artwork_info.content_fetch.content_enriched_description).getD ""
    else if pyTruthyOptStr artwork_info.web_search.enriched_description then
      (artwork_info.web_search.enriched_description).getD ""
    else artwork_info.basic_info.description
  "다음은 박물관 작품에 대한 정보입니다. 이 정보를 바탕으로 VisionStory AI에서 사용할 영상 나레이션 스크립트를 작성해주세요.\n\n작품 정보:\n- 작품명: " ++
  artwork_info.basic_info.title ++ "\n- 작가: " ++ artwork_info.basic_info.artist ++
  "\n- 제작연도: " ++ artwork_info.basic_info.year ++ "\n- 작품 설명: " ++ description ++
  "\n\n스크립트 요구사항: (자연스러운 한국어 나레이션, 30초~2분 분량)\n응답은 스크립트 내용만 작성하세요. 다른 설명이나 주석은 포함하지 마세요."

/-- `VideoScriptGenerator._clean_script_content`: strip one code fence when
a closing fence exists, strip whitespace, force terminal punctuation. -/
def clean_script_content (raw_response : String) : String :=
  let r1 :=
    if pyIn "```" raw_response then
      let start := (pyFind raw_response "```").getD 0 + 3
      match pyFindFrom raw_response "```" start with
      | some e => pyStrip (pySlice raw_response start (e : Int))
      | none => raw_response
    else raw_response
  let script := pyStrip r1
  if !(pyEndsWith script "." || pyEndsWith script "!" || pyEndsWith script "?") then
    script ++ "."
  else script

/-- `VideoScriptGenerator._calculate_script_length`:
`len(text)/5` seconds clamped to `[10, 120]`. -/
def calculate_script_length (script_content : String) : Nat :=
  max 10 (min 120 (pyLen script_content / 5))

/-- The deterministic fallback narration of `_create_fallback_script`. -/
def video_fallback_text (artwork_info : ArtworkExtractedInfo) : String :=
  "이 작품은 " ++ artwork_info.basic_info.artist ++ "가 " ++ artwork_info.basic_info.year ++
  "에 제작한 \x27" ++ artwork_info.basic_info.title ++
  "\x27입니다. 이 작품은 예술사에서 중요한 의미를 지니며, 작가의 독특한 기법과 창의성이 잘 드러나 있습니다. 박물관에서 직접 감상하시면 더욱 깊이 있는 예술 경험을 하실 수 있을 것입니다."

/-- `VideoScriptGenerator.generate_video_script`: Gemini narration when a
response arrives, the fallback template on an empty response, and the
`success=False` error record when the collaborator raises (the deployed
`GeminiService` never raises; the branch is kept for fidelity). -/
def generate_video_script (gemini : String → Except PyErr (Option String))
    (artwork_info : ArtworkExtractedInfo) : VideoScriptInfo × List RemoteCall :=
  let prompt := build_script_prompt artwork_info
  match gemini prompt with
  | .error e =>
    ({ script_content := "", script_length := 0, generation_method := "error",
       success := false, error_message := some (pyErrMsg e) }, [.gemini prompt])
  | .ok raw_response =>
    if pyTruthyOptStr raw_response then
      let script_content := clean_script_content (raw_response.getD "")
      ({ script_content := script_content,
         script_length := calculate_script_length script_content,
         generation_method := "gemini_ai", success := true, error_message := none },
       [.gemini prompt])
    else
      let fallback_script := video_fallback_text artwork_info
      ({ script_content := fallback_script,
         script_length := calculate_script_length fallback_script,
         generation_method := "fallback_template", success := true, error_message := none },
       [.gemini prompt])

/-! ## `ArtworkInfoOrchestrator` (`usecases/artwork_info_orchestrator.py`) -/

/-- `ArtworkInfoOrchestrator.extract_and_enrich`, composed exactly as the
repository composes it: every component calls `GeminiService.generate_content`
(which never raises), and both `except` arms of the orchestrator re-raise,
so a stage exception is passed through unchanged.

On any input whose OCR yields a valid title, the run dies inside the
enrichment stage (the `TypeError` of `enrich_with_web_search`) and that
exception is re-raised to the caller.  The continuation after the enricher
is dead code with two further slips, modelled as the `TypeError`s they
would raise: the orchestrator `await`s the *synchronous* content enricher's
return value (the enricher itself returns without remote calls —
`asyncio.run` inside the running loop fails before any fetch and is caught
internally — and the `await` then raises), and on the skip branch it passes
`video_script=` to the four-field `ArtworkExtractedInfo` before the script
generator could run. -/
def extract_and_enrich (graw : String → GeminiRaw) (jsonLoads : String → Option JsonObj)
    (brave : String → Nat → Except PyErr SearchResults) (fetchO : String → FetchRaw)
    (brave_available fetch_available : Bool)
    (ocr_text : String) (museum_name : Option String) :
    Except PyErr ArtworkExtractedInfo × List RemoteCall :=
  let gemini : String → Except PyErr (Option String) :=
    fun p => .ok (GeminiService_generate_content graw p)
  match extract_basic_info gemini jsonLoads ocr_text with
  | (.error e, log1) => (.error e, log1)
  | (.ok (basic_info, _), log1) =>
    match enrich_with_web_search brave_available brave gemini fetchO basic_info museum_name with
    | (.error e, log2) => (.error e, log1 ++ log2)
    | (.ok web_search_info, log2) =>
      -- unreachable: the enricher always raises; kept for branch fidelity
      if web_search_info.performed && web_search_info.search_results.isSome then
        (.error (.other typeErrorAwaitMsg), log1 ++ log2)
      else
        (.error (.other typeErrorVideoScriptMsg), log1 ++ log2)

/-! ## Supporting lemmas -/

/-- A title passing the gate is non-blank, non-sentinel, at least two
characters after stripping, and not purely numeric. -/
theorem is_invalid_title_props (t : String) (h : is_invalid_title t = false) :
    pyStrip t ≠ "" ∧ t ≠ default_title ∧ 2 ≤ pyLen (pyStrip t) ∧
    pyIsDigit (pyStrip t) = false := by
  unfold is_invalid_title at h
  split_ifs at h with h1 h2 h3 h4 h5
  refine ⟨?_, h2, by omega, ?_⟩
  · intro hs
    exact h1 (by simp [hs])
  · simpa using h5

/-- The metadata slice a fallback produces, by computation. -/
theorem create_fallback_metadata (ocr_text error_reason : String) :
    (create_fallback_result ocr_text error_reason).2 =
      { confidence := 30, extraction_method := "fallback_rules (" ++ error_reason ++ ")",
        raw_response := "", success := false } := rfl

/-- Every fallback method string starts with `"fallback_rules"`. -/
theorem pyStartsWith_fallback_rules (r : String) :
    pyStartsWith ("fallback_rules (" ++ r) "fallback_rules" = true := rfl

/-- Claim C2: a record leaves the extractor only when its title passes the
`_is_invalid_title` gate — equivalently, the title is non-blank and
non-sentinel, does not match the denylist, is at least 2 characters after
stripping, and is not purely numeric; every invalid candidate title instead
raises `ArtworkTitleNotFoundError`, on the AI path and on every rule-based
fallback path alike (the theorem quantifies over all collaborator
behaviours, so it covers both paths). -/
theorem extractor_returns_only_valid_titles
    (gemini : String → Except PyErr (Option String)) (jsonLoads : String → Option JsonObj)
    (ocr_text : String) (bi : ArtworkBasicInfo) (md : ExtractionMetadata)
    (h : (extract_basic_info gemini jsonLoads ocr_text).1 = .ok (bi, md)) :
    is_invalid_title bi.title = false ∧ pyStrip bi.title ≠ "" ∧ bi.title ≠ default_title ∧
    2 ≤ pyLen (pyStrip bi.title) ∧ pyIsDigit (pyStrip bi.title) = false := by
  have hinv : is_invalid_title bi.title = false := by
    unfold extract_basic_info at h
    split at h
    · simp at h
    · simp only [] at h
      cases hg : gemini (build_extraction_prompt ocr_text) with
      | error e =>
        rw [hg] at h
        cases e
        · simp at h
        · repeat' split at h
          all_goals simp_all
      | ok raw =>
        rw [hg] at h
        cases raw
        · repeat' split at h
          all_goals simp_all
        · repeat' split at h
          all_goals simp_all
          all_goals (obtain ⟨hb, -⟩ := h; subst hb; simp_all)
  obtain ⟨h1, h2, h3, h4⟩ := is_invalid_title_props bi.title hinv
  exact ⟨hinv, h1, h2, h3, h4⟩

/-- A Gemini collaborator that raises a generic exception (drives the
extractor onto its rule-based fallback path). -/
def geminiRaisesOther : String → Except PyErr (Option String) := fun _ => .error (.other "boom")

/-- A `json.loads` oracle on which every parse fails. -/
def jsonLoadsNone : String → Option JsonObj := fun _ => none

/-- Witness for C2: on OCR text `"Mona Lisa"` with a raising AI
collaborator, the extractor returns via the fallback path and the returned
title satisfies every gate property. -/
theorem extractor_returns_only_valid_titles_witness :
    is_invalid_title (ArtworkBasicInfo.mk "Mona Lisa" default_artist default_year
        default_description).title = false ∧
    pyStrip (ArtworkBasicInfo.mk "Mona Lisa" default_artist default_year
        default_description).title ≠ "" ∧
    (ArtworkBasicInfo.mk "Mona Lisa" default_artist default_year
        default_description).title ≠ default_title ∧
    2 ≤ pyLen (pyStrip (ArtworkBasicInfo.mk "Mona Lisa" default_artist default_year
        default_description).title) ∧
    pyIsDigit (pyStrip (ArtworkBasicInfo.mk "Mona Lisa" default_artist default_year
        default_description).title) = false :=
  extractor_returns_only_valid_titles geminiRaisesOther jsonLoadsNone "Mona Lisa"
    (ArtworkBasicInfo.mk "Mona Lisa" default_artist default_year default_description)
    (ExtractionMetadata.mk 30 "fallback_rules (gemini_error: boom)" "" false)
    (by rfl)

/-- The fallback metadata profile, extracted from a fallback return. -/
theorem fallback_pair_snd {ocr r : String} {bi : ArtworkBasicInfo} {md : ExtractionMetadata}
    (h : create_fallback_result ocr r = (bi, md)) :
    md.success = false ∧ md.confidence = 30 ∧
    pyStartsWith md.extraction_method "fallback_rules" = true := by
  have hm : md = (create_fallback_result ocr r).2 := by rw [h]
  rw [create_fallback_metadata] at hm
  subst hm
  exact ⟨rfl, rfl, rfl⟩

/-- Claim C10: whenever the extractor returns, the metadata identifies the
path that produced the record — `success=true` together with confidence
`0.9` and method `"gemini_ai_success"` exactly on the AI path, and
`success=false` with confidence `0.3` and a method starting with
`"fallback_rules"` on every rule-based fallback path. -/
theorem extractor_metadata_matches_path
    (gemini : String → Except PyErr (Option String)) (jsonLoads : String → Option JsonObj)
    (ocr_text : String) (bi : ArtworkBasicInfo) (md : ExtractionMetadata)
    (h : (extract_basic_info gemini jsonLoads ocr_text).1 = .ok (bi, md)) :
    (md.success = true ∧ md.confidence = 90 ∧ md.extraction_method = "gemini_ai_success") ∨
    (md.success = false ∧ md.confidence = 30 ∧
      pyStartsWith md.extraction_method "fallback_rules" = true) := by
  unfold extract_basic_info at h
  split at h
  · simp at h
  · simp only [] at h
    cases hg : gemini (build_extraction_prompt ocr_text) with
    | error e =>
      rw [hg] at h
      cases e
      · simp at h
      · repeat' split at h
        all_goals simp_all
        all_goals exact Or.inr (fallback_pair_snd h)
    | ok raw =>
      rw [hg] at h
      cases raw
      · repeat' split at h
        all_goals simp_all
        all_goals exact Or.inr (fallback_pair_snd h)
      · repeat' split at h
        all_goals simp_all
        all_goals try (obtain ⟨-, hm⟩ := h; subst hm; exact Or.inl ⟨rfl, rfl, rfl⟩)
        all_goals exact Or.inr (fallback_pair_snd h)

/-- A Gemini collaborator that returns no response (`None`). -/
def geminiReturnsNone : String → Except PyErr (Option String) := fun _ => .ok none

/-- Witness for C10: with an AI collaborator returning `None`, the
extractor returns via the fallback path and the metadata shows the fallback
profile. -/
theorem extractor_metadata_matches_path_witness :
    ((ExtractionMetadata.mk 30 "fallback_rules (gemini_response_failed)" "" false).success = true ∧
     (ExtractionMetadata.mk 30 "fallback_rules (gemini_response_failed)" "" false).confidence = 90 ∧
     (ExtractionMetadata.mk 30 "fallback_rules (gemini_response_failed)" "" false).extraction_method =
       "gemini_ai_success") ∨
    ((ExtractionMetadata.mk 30 "fallback_rules (gemini_response_failed)" "" false).success = false ∧
     (ExtractionMetadata.mk 30 "fallback_rules (gemini_response_failed)" "" false).confidence = 30 ∧
     pyStartsWith (ExtractionMetadata.mk 30 "fallback_rules (gemini_response_failed)" ""
       false).extraction_method "fallback_rules" = true) :=
  extractor_metadata_matches_path geminiReturnsNone jsonLoadsNone "Sunflowers"
    (ArtworkBasicInfo.mk "Sunflowers" default_artist default_year default_description)
    (ExtractionMetadata.mk 30 "fallback_rules (gemini_response_failed)" "" false)
    (by rfl)

/-- Claim C5: on empty or whitespace-only OCR text the pipeline raises
`ArtworkTitleNotFoundError` immediately — the result is the exception and
the remote-call log is empty: the AI, search and fetch collaborators are
never invoked, whatever they would answer. -/
theorem pipeline_empty_ocr_raises_before_any_call
    (graw : String → GeminiRaw) (jsonLoads : String → Option JsonObj)
    (brave : String → Nat → Except PyErr SearchResults) (fetchO : String → FetchRaw)
    (brave_available fetch_available : Bool) (ocr_text : String) (museum_name : Option String)
    (h : pyStrip ocr_text = "") :
    extract_and_enrich graw jsonLoads brave fetchO brave_available fetch_available
      ocr_text museum_name =
      (.error (.titleNotFound "빈 OCR 텍스트로 작품명을 확인할 수 없습니다"), []) := by
  unfold extract_and_enrich extract_basic_info
  simp [h]

/-- Witness for C5: the whitespace-only scan `"  "` with concrete
collaborators. -/
theorem pipeline_empty_ocr_raises_before_any_call_witness :
    extract_and_enrich (fun _ => .candidates "x") jsonLoadsNone (fun _ _ => .error (.other "e"))
      (fun _ => .toolOk .unparsed) true true "  " none =
      (.error (.titleNotFound "빈 OCR 텍스트로 작품명을 확인할 수 없습니다"), []) :=
  pipeline_empty_ocr_raises_before_any_call (fun _ => .candidates "x") jsonLoadsNone
    (fun _ _ => .error (.other "e")) (fun _ => .toolOk .unparsed) true true "  " none (by rfl)

/-- The extractor never lets an exception other than
`ArtworkTitleNotFoundError` escape: every run returns a record or raises
the title error, for every collaborator behaviour. -/
theorem extract_basic_info_ok_or_title
    (gemini : String → Except PyErr (Option String)) (jsonLoads : String → Option JsonObj)
    (ocr_text : String) :
    (∃ r, (extract_basic_info gemini jsonLoads ocr_text).1 = .ok r) ∨
    (∃ m, (extract_basic_info gemini jsonLoads ocr_text).1 = .error (.titleNotFound m)) := by
  unfold extract_basic_info
  split
  · exact Or.inr ⟨_, rfl⟩
  · simp only []
    cases gemini (build_extraction_prompt ocr_text) with
    | error e =>
      cases e
      · exact Or.inr ⟨_, rfl⟩
      · repeat' split
        all_goals first
          | exact Or.inl ⟨_, rfl⟩
          | exact Or.inr ⟨_, rfl⟩
    | ok raw =>
      cases raw
      all_goals repeat' split
      all_goals first
        | exact Or.inl ⟨_, rfl⟩
        | exact Or.inr ⟨_, rfl⟩

/-- With the deployed `GeminiService` collaborator (which swallows its own
exceptions) the web-search enrichment raises the `WebSearchInfo`
construction `TypeError` on every branch: each of the five construction
sites passes the undeclared `description=` keyword, and every other
exception inside the `try` funnels into the handler whose own construction
raises it too. -/
theorem enrich_composed_always_type_error
    (graw : String → GeminiRaw) (brave : String → Nat → Except PyErr SearchResults)
    (fetchO : String → FetchRaw) (brave_available : Bool)
    (basic_info : ArtworkBasicInfo) (museum_name : Option String) :
    (enrich_with_web_search brave_available brave
      (fun p => .ok (GeminiService_generate_content graw p)) fetchO basic_info
      museum_name).1 = .error (.other typeErrorDescriptionMsg) := by
  unfold enrich_with_web_search
  split
  · rfl
  · split
    · rfl
    · simp only []
      cases brave (pyStrip (basic_info.title ++ " " ++ museum_name.getD "")) 5 with
      | error e => rfl
      | ok sr =>
        repeat' split
        all_goals rfl

/-- Claim C1 (code bug): the orchestrator never returns a composite at all —
for every collaborator behaviour it raises either
`ArtworkTitleNotFoundError` or the `WebSearchInfo(description=...)`
`TypeError`, which its `except Exception: raise` re-raises to the caller;
and at the concrete failing scan `"Starry Night\nVincent van Gogh\n1889"`
with museum `"MoMA"` the caller sees exactly that `TypeError` (after one
Gemini call and one search call). -/
theorem orchestrator_type_error_code_bug :
    (∀ (graw : String → GeminiRaw) (jsonLoads : String → Option JsonObj)
      (brave : String → Nat → Except PyErr SearchResults) (fetchO : String → FetchRaw)
      (brave_available fetch_available : Bool) (ocr_text : String)
      (museum_name : Option String),
      (∃ m, (extract_and_enrich graw jsonLoads brave fetchO brave_available fetch_available
          ocr_text museum_name).1 = .error (.titleNotFound m)) ∨
      (extract_and_enrich graw jsonLoads brave fetchO brave_available fetch_available
          ocr_text museum_name).1 = .error (.other typeErrorDescriptionMsg)) ∧
    extract_and_enrich (fun _ => .noCandidates) jsonLoadsNone
        (fun _ _ => .error (.other "ConnectionError")) (fun _ => .toolOk .unparsed) true true
        "Starry Night\nVincent van Gogh\n1889" (some "MoMA") =
      (.error (.other typeErrorDescriptionMsg),
       [.gemini (build_extraction_prompt "Starry Night\nVincent van Gogh\n1889"),
        .braveSearch "Starry Night MoMA"]) := by
  constructor
  · intro graw jsonLoads brave fetchO brave_available fetch_available ocr_text museum_name
    unfold extract_and_enrich
    simp only []
    rcases hx : extract_basic_info (fun p => .ok (GeminiService_generate_content graw p))
        jsonLoads ocr_text with ⟨res, log1⟩
    rcases extract_basic_info_ok_or_title (fun p => .ok (GeminiService_generate_content graw p))
        jsonLoads ocr_text with ⟨r, hr⟩ | ⟨m, hm⟩
    · rw [hx] at hr
      obtain ⟨bi, md⟩ := r
      simp only at hr
      subst hr
      right
      simp only []
      rcases he : enrich_with_web_search brave_available brave
          (fun p => .ok (GeminiService_generate_content graw p)) fetchO bi museum_name with
        ⟨er, log2⟩
      have h1 := enrich_composed_always_type_error graw brave fetchO brave_available
        bi museum_name
      rw [he] at h1
      simp only at h1
      subst h1
      rfl
    · rw [hx] at hm
      simp only at hm
      subst hm
      exact Or.inl ⟨m, rfl⟩
  · rfl

/-- Claim C7: with the deployed Gemini service (never raising), every
`generate_video_script` result is a playable script: `success=true`, the
estimated duration is `len(content)/5` seconds clamped to `[10, 120]`, and
whenever the AI yields no usable response the content is exactly the
deterministic fallback template interpolating title, artist and year. -/
theorem video_script_duration_and_fallback (graw : String → GeminiRaw)
    (artwork_info : ArtworkExtractedInfo) :
    (generate_video_script (fun p => .ok (GeminiService_generate_content graw p))
        artwork_info).1.script_length =
      max 10 (min 120 (pyLen (generate_video_script
        (fun p => .ok (GeminiService_generate_content graw p))
        artwork_info).1.script_content / 5)) ∧
    (generate_video_script (fun p => .ok (GeminiService_generate_content graw p))
        artwork_info).1.success = true ∧
    (pyTruthyOptStr (GeminiService_generate_content graw
        (build_script_prompt artwork_info)) = false →
      (generate_video_script (fun p => .ok (GeminiService_generate_content graw p))
          artwork_info).1.script_content = video_fallback_text artwork_info ∧
      (generate_video_script (fun p => .ok (GeminiService_generate_content graw p))
          artwork_info).1.generation_method = "fallback_template") := by
  unfold generate_video_script
  simp only []
  split
  next htr => exact ⟨rfl, rfl, fun hf => absurd htr (by simp [hf])⟩
  next htr => exact ⟨rfl, rfl, fun _ => ⟨rfl, rfl⟩⟩

/-- Claim C8: when the rule-based confidence already reaches the escalation
threshold, `analyze_text` issues no AI call and returns the rule-based
result (same category, confidence, description verdict and reasoning), and
the outcome is independent of the AI collaborator — classification is
deterministic on such inputs. -/
theorem hybrid_confident_rule_only (gemini_available : Bool)
    (aiO aiO' : String → Except PyErr Bool) (confidence_threshold : Nat) (text : String)
    (h : confidence_threshold ≤ (ScriptAnalyzer_analyze_text text).confidence) :
    (HybridAnalyzer_analyze_text gemini_available aiO confidence_threshold text).2 = [] ∧
    (HybridAnalyzer_analyze_text gemini_available aiO confidence_threshold text).1.text_type =
      (ScriptAnalyzer_analyze_text text).text_type ∧
    (HybridAnalyzer_analyze_text gemini_available aiO confidence_threshold text).1.confidence =
      (ScriptAnalyzer_analyze_text text).confidence ∧
    (HybridAnalyzer_analyze_text gemini_available aiO confidence_threshold text).1.is_description =
      (ScriptAnalyzer_analyze_text text).is_description ∧
    (HybridAnalyzer_analyze_text gemini_available aiO confidence_threshold text).1.reasoning =
      (ScriptAnalyzer_analyze_text text).reasoning ∧
    HybridAnalyzer_analyze_text gemini_available aiO confidence_threshold text =
      HybridAnalyzer_analyze_text gemini_available aiO' confidence_threshold text := by
  have key : ∀ (o : String → Except PyErr Bool),
      HybridAnalyzer_analyze_text gemini_available o confidence_threshold text =
        (if (!pyTruthyStr text || pyStrip text = "") = true then
          ({ text_type := (ScriptAnalyzer_analyze_text "").text_type, confidence := 100,
             is_description := false, reasoning := "빈 텍스트",
             metadata := some (.tags "rule_based" "input_validation") }, ([] : List RemoteCall))
        else ({ ScriptAnalyzer_analyze_text text with
                metadata := some (.tags "rule_based" "confident_result") }, [])) := by
    intro o
    unfold HybridAnalyzer_analyze_text
    split
    next hc => rfl
    next hc =>
      simp only []
      rw [if_pos h]
  rw [key aiO, key aiO']
  by_cases hc : (!pyTruthyStr text || pyStrip text = "") = true
  · have ha : ScriptAnalyzer_analyze_text text =
        { text_type := .other, confidence := 100, is_description := false,
          reasoning := "빈 텍스트" } := by
      unfold ScriptAnalyzer_analyze_text
      rw [if_pos hc]
    rw [if_pos hc, ha]
    exact ⟨rfl, rfl, rfl, rfl, rfl, rfl⟩
  · rw [if_neg hc]
    exact ⟨rfl, rfl, rfl, rfl, rfl, rfl⟩

/-- Witness for C8: the short text `"abc"` has rule confidence `0.9`,
above the default threshold `0.75`; no AI call is made and the result
equals the rule-based one under two different AI collaborators. -/
theorem hybrid_confident_rule_only_witness :
    (HybridAnalyzer_analyze_text true (fun _ => .ok true) 75 "abc").2 = [] ∧
    (HybridAnalyzer_analyze_text true (fun _ => .ok true) 75 "abc").1.text_type =
      (ScriptAnalyzer_analyze_text "abc").text_type ∧
    (HybridAnalyzer_analyze_text true (fun _ => .ok true) 75 "abc").1.confidence =
      (ScriptAnalyzer_analyze_text "abc").confidence ∧
    (HybridAnalyzer_analyze_text true (fun _ => .ok true) 75 "abc").1.is_description =
      (ScriptAnalyzer_analyze_text "abc").is_description ∧
    (HybridAnalyzer_analyze_text true (fun _ => .ok true) 75 "abc").1.reasoning =
      (ScriptAnalyzer_analyze_text "abc").reasoning ∧
    HybridAnalyzer_analyze_text true (fun _ => .ok true) 75 "abc" =
      HybridAnalyzer_analyze_text true (fun _ => .error (.other "down")) 75 "abc" :=
  hybrid_confident_rule_only true (fun _ => .ok true) (fun _ => .error (.other "down"))
    75 "abc" (by decide)

/-- Claim C4 as the spec states it: connection/timeout failures on search
and fetch calls are retried (a connection-error-then-success trace
succeeds after one retry, i.e. two attempts) while tool errors fail after
one attempt. -/
def retryClaimStated : Prop :=
  (∀ (attempts : Nat → BraveHttpOutcome) (r : List SearchItem),
    (∃ m, attempts 0 = .requestException m) → attempts 1 = .respOk r →
    BraveSearchService_call_mcp_api attempts = (some r, 2)) ∧
  (∀ (attempts : Nat → BraveHttpOutcome) (m : String),
    attempts 0 = .otherException m → BraveSearchService_call_mcp_api attempts = (none, 1))

/-- A connection-error-then-success attempt trace. -/
def braveTraceConnThenOk : Nat → BraveHttpOutcome :=
  fun n => if n = 0 then .requestException "Connection timed out"
           else .respOk [.urlString "https://museum.example/starry-night"]

/-- Counterexample to C4: on the connection-error-then-success trace the
code returns failure after a single attempt — there is no retry logic in
`_call_mcp_api` (nor in `fetch_url_mcp_async`), so the claimed
success-with-one-retry behaviour is false. -/
theorem retryClaimStated_false : ¬ retryClaimStated := by
  intro h
  have h2 := h.1 braveTraceConnThenOk [.urlString "https://museum.example/starry-night"]
    ⟨"Connection timed out", rfl⟩ rfl
  have h3 : BraveSearchService_call_mcp_api braveTraceConnThenOk = (none, 1) := rfl
  rw [h3] at h2
  simp at h2

/-- Claim C4 as amended: no failure class is retried — every search
invocation and every fetch invocation makes exactly one attempt; a
connection/timeout failure and a tool error alike yield an immediate
failure result, and a first-attempt success yields the parsed response. -/
theorem remote_calls_single_attempt (attempts : Nat → BraveHttpOutcome)
    (url : String) (fattempts : Nat → FetchRaw) :
    (BraveSearchService_call_mcp_api attempts).2 = 1 ∧
    (∀ m, attempts 0 = .requestException m →
      (BraveSearchService_call_mcp_api attempts).1 = none) ∧
    (∀ m, attempts 0 = .otherException m →
      (BraveSearchService_call_mcp_api attempts).1 = none) ∧
    (∀ r, attempts 0 = .respOk r → (BraveSearchService_call_mcp_api attempts).1 = some r) ∧
    (FetchService_fetch_url_attempts url fattempts).2 = 1 ∧
    (∀ m, fattempts 0 = .connError m →
      (FetchService_fetch_url_attempts url fattempts).1.success = false) ∧
    (∀ m, fattempts 0 = .toolError m →
      (FetchService_fetch_url_attempts url fattempts).1.success = false) := by
  refine ⟨rfl, ?_, ?_, ?_, rfl, ?_, ?_⟩
  all_goals intro v hv
  all_goals simp only [BraveSearchService_call_mcp_api, FetchService_fetch_url_attempts,
    FetchService_fetch_url_mcp_async]
  all_goals rw [hv]

/-- A record with an already-valid description. -/
def basicWithValidDescription : ArtworkBasicInfo :=
  { title := "별이 빛나는 밤", artist := "빈센트 반 고흐", year := "1889",
    description := "소용돌이치는 밤하늘을 그린 작품이다" }

/-- Claim C3 (code bug): on every record whose description is already
valid, the enricher issues exactly one remote call — the single Gemini
clean-up, never a search or fetch call — but then raises the
`WebSearchInfo(description=...)` `TypeError` (the construction at lines
86–92 sits outside any `try`) instead of returning `performed=false` with
the clean-up as description; shown for every valid-description record and
evaluated at the concrete failing record. -/
theorem cleanup_path_type_error_code_bug :
    (∀ (graw : String → GeminiRaw) (brave : String → Nat → Except PyErr SearchResults)
      (fetchO : String → FetchRaw) (basic_info : ArtworkBasicInfo)
      (museum_name : Option String),
      has_valid_description basic_info.description = true →
      enrich_with_web_search true brave
          (fun p => .ok (GeminiService_generate_content graw p)) fetchO basic_info
          museum_name =
        (.error (.other typeErrorDescriptionMsg),
         [.gemini (cleanup_prompt basic_info.description)])) ∧
    enrich_with_web_search true (fun _ _ => .error (.other "unused"))
        (fun p => .ok (GeminiService_generate_content
          (fun _ => .candidates "소용돌이치는 밤하늘을 그린 작품입니다.") p))
        (fun _ => .toolOk .unparsed) basicWithValidDescription none =
      (.error (.other typeErrorDescriptionMsg),
       [.gemini (cleanup_prompt basicWithValidDescription.description)]) := by
  constructor
  · intro graw brave fetchO basic_info museum_name h
    unfold enrich_with_web_search
    rw [if_neg (by simp), if_pos h]
  · rfl

/-- Every category's Stage-B score is bounded by the maximal score. -/
theorem pattern_score_le_max (t : String) (tt : TextType) :
    pattern_score t tt ≤ pattern_max_score t := by
  unfold pattern_max_score
  cases tt <;> simp only [] <;> omega

/-- The category `_pattern_analysis` picks attains the maximal score. -/
theorem pattern_best_attains_max (t : String) :
    pattern_score t (pattern_best_type t) = pattern_max_score t := by
  unfold pattern_best_type pattern_max_score
  simp only []
  split_ifs <;> omega

/-- Claim C9 as the spec states it: on every text reaching Stage B, the
returned category is max-scoring, the confidence is at most `0.9`, and
texts longer than the 50-character threshold have confidence at least
`0.6`. -/
def patternClaimStated : Prop :=
  ∀ text : String, pyStrip text ≠ "" →
    (ScriptAnalyzer_quick_rule_filter (pyStrip text)).confidence < 80 →
    (∀ tt, pattern_score (pyStrip text) tt ≤
      pattern_score (pyStrip text) (ScriptAnalyzer_analyze_text text).text_type) ∧
    (ScriptAnalyzer_analyze_text text).confidence ≤ 90 ∧
    (pyLen (pyStrip text) > 50 → 60 ≤ (ScriptAnalyzer_analyze_text text).confidence)

/-- A 55-character two-sentence text with no category keywords: it reaches
Stage B, scores `0.3` for DESCRIPTION (sentence-structure bonus) and `0`
elsewhere, so no low-score override fires and the returned confidence is
`0.3`. -/
def plainTwoSentenceText : String :=
  "가가가가가가가가가가가가가가가가가가가가가가가가가다.가가가가가가가가가가가가가가가가가가가가가가가가가가다."

/-- Counterexample to C9: `plainTwoSentenceText` is longer than the
50-character threshold yet `analyze_text` returns confidence `0.3 < 0.6` —
the `0.6` floor exists only in the below-`0.3` override branch, which this
text does not take. -/
theorem patternClaimStated_false : ¬ patternClaimStated := by
  intro h
  have h2 := (h plainTwoSentenceText (by decide) (by decide)).2.2 (by decide)
  exact absurd h2 (by decide)

/-- Claim C9 as amended: on every text reaching Stage B the confidence is
capped at `0.9`; when the maximal pattern score is at least `0.3` the
returned category is the max-scoring one and the confidence is that score
capped at `0.9`; when the maximal score is below `0.3` the scores are
overridden — the category is DESCRIPTION for texts over 50 characters and
OTHER otherwise, with confidence exactly `0.6` (the floor applies only in
this branch, to short texts as well). -/
theorem pattern_stage_b_properties (text : String) (h1 : pyStrip text ≠ "")
    (h2 : (ScriptAnalyzer_quick_rule_filter (pyStrip text)).confidence < 80) :
    (ScriptAnalyzer_analyze_text text).confidence ≤ 90 ∧
    (∀ tt, pattern_score (pyStrip text) tt ≤ pattern_max_score (pyStrip text)) ∧
    (30 ≤ pattern_max_score (pyStrip text) →
      (ScriptAnalyzer_analyze_text text).text_type = pattern_best_type (pyStrip text) ∧
      pattern_score (pyStrip text) (pattern_best_type (pyStrip text)) =
        pattern_max_score (pyStrip text) ∧
      (ScriptAnalyzer_analyze_text text).confidence =
        min (pattern_max_score (pyStrip text)) 90) ∧
    (pattern_max_score (pyStrip text) < 30 →
      (ScriptAnalyzer_analyze_text text).confidence = 60 ∧
      (ScriptAnalyzer_analyze_text text).text_type =
        (if pyLen (pyStrip text) > 50 then TextType.artwork_description else .other)) := by
  have htT : pyTruthyStr text = true := by
    unfold pyTruthyStr
    cases text with
    | mk l =>
      cases l with
      | nil => exact absurd rfl h1
      | cons c cs => rfl
  have hred : ScriptAnalyzer_analyze_text text = ScriptAnalyzer_pattern_analysis (pyStrip text) := by
    unfold ScriptAnalyzer_analyze_text
    rw [if_neg (by simp [htT, h1])]
    simp only []
    rw [if_neg (by omega)]
  rw [hred]
  unfold ScriptAnalyzer_pattern_analysis
  simp only []
  by_cases hmx : pattern_max_score (pyStrip text) < 30
  · rw [if_pos hmx, if_pos hmx]
    exact ⟨by omega, fun tt => pattern_score_le_max _ tt,
      fun hge => absurd hge (by omega), fun _ => ⟨rfl, rfl⟩⟩
  · rw [if_neg hmx, if_neg hmx]
    refine ⟨min_le_right _ _, fun tt => pattern_score_le_max _ tt,
      fun _ => ⟨rfl, pattern_best_attains_max _, rfl⟩, fun hlt => absurd hlt hmx⟩

/-- Witness for C9 (amended): a 55-character keyword-free two-sentence
text lands in the max-score branch with category DESCRIPTION and
confidence `0.3`. -/
theorem pattern_stage_b_properties_witness :
    (ScriptAnalyzer_analyze_text plainTwoSentenceText).confidence ≤ 90 ∧
    (∀ tt, pattern_score (pyStrip plainTwoSentenceText) tt ≤
      pattern_max_score (pyStrip plainTwoSentenceText)) ∧
    (30 ≤ pattern_max_score (pyStrip plainTwoSentenceText) →
      (ScriptAnalyzer_analyze_text plainTwoSentenceText).text_type =
        pattern_best_type (pyStrip plainTwoSentenceText) ∧
      pattern_score (pyStrip plainTwoSentenceText)
          (pattern_best_type (pyStrip plainTwoSentenceText)) =
        pattern_max_score (pyStrip plainTwoSentenceText) ∧
      (ScriptAnalyzer_analyze_text plainTwoSentenceText).confidence =
        min (pattern_max_score (pyStrip plainTwoSentenceText)) 90) ∧
    (pattern_max_score (pyStrip plainTwoSentenceText) < 30 →
      (ScriptAnalyzer_analyze_text plainTwoSentenceText).confidence = 60 ∧
      (ScriptAnalyzer_analyze_text plainTwoSentenceText).text_type =
        (if pyLen (pyStrip plainTwoSentenceText) > 50 then TextType.artwork_description
         else .other)) :=
  pattern_stage_b_properties plainTwoSentenceText (by decide) (by decide)

/-- Failed fetches contribute nothing to the snippet extraction: the
snippets drawn from a result list equal those drawn from its successful
entries alone. -/
theorem extract_snippets_success_only (results : List FetchResult) (n : Nat) :
    extract_content_snippets results n =
      extract_content_snippets (results.filter (·.success)) n := by
  unfold extract_content_snippets
  congr 1
  induction results with
  | nil => rfl
  | cons r rest ih =>
    by_cases hs : r.success
    · simp [List.filter_cons, hs, ih]
    · have he : snippet_entries r = [] := by
        unfold snippet_entries
        rw [if_pos]
        simp [hs]
      simp [List.filter_cons, hs, ih, he]

/-- Claim C6 as the spec states it: whenever the web search was performed
with candidate results, the content stage reports `performed=true`; when at
least one fetch succeeds, every successful body (500-capped) appears in the
enriched description; when all fetches fail there is no enrichment. -/
def contentFetchClaimStated : Prop :=
  ∀ (ws : WebSearchInfo) (fetchO : String → FetchRaw) (sr : SearchResults),
    ws.performed = true → ws.search_results = some sr → sr.results ≠ [] →
    (enrich_with_content_fetch true fetchO ws).1.performed = true ∧
    ∀ results, (enrich_with_content_fetch true fetchO ws).1.fetch_results = some results →
      (results.any (·.success) = true →
        ∃ d, (enrich_with_content_fetch true fetchO ws).1.content_enriched_description =
            some d ∧
          ∀ r ∈ results, r.success = true →
            pyIn (if pyLen r.content > 500 then pyTake r.content 500 ++ "..." else r.content)
              d = true) ∧
      (results.all (fun r => !r.success) = true →
        (enrich_with_content_fetch true fetchO ws).1.content_enriched_description = none)

/-- Three candidate URLs for the counterexample. -/
def c6SearchResults : SearchResults :=
  { success := true, error := none,
    results := [.urlString "https://a.com", .urlString "https://b.com",
                .urlString "https://c.com"] }

/-- A performed web search whose enriched description is `"WEB"`. -/
def c6WebSearchInfo : WebSearchInfo :=
  { performed := true, search_results := some c6SearchResults,
    enriched_description := some "WEB" }

/-- A fetch world where the first URL fails and the other two succeed with
titled bodies. -/
def c6FetchOracle : String → FetchRaw := fun u =>
  if u = "https://a.com" then .connError "reset"
  else if u = "https://b.com" then .toolOk (.parsed "T2" "BODY2")
  else .toolOk (.parsed "T3" "BODY3UNIQUE")

/-- The per-URL results that world produces. -/
def c6FetchResults : List FetchResult :=
  [{ url := "https://a.com", success := false, error := "연결 오류: reset" },
   { url := "https://b.com", success := true, title := "T2", content := "BODY2",
     text_length := 5 },
   { url := "https://c.com", success := true, title := "T3", content := "BODY3UNIQUE",
     text_length := 11 }]

/-- The third, successful result. -/
def c6ResultThird : FetchResult :=
  { url := "https://c.com", success := true, title := "T3", content := "BODY3UNIQUE",
    text_length := 11 }

/-- Counterexample to C6: with titled results the 5-entry snippet cap cuts
the second successful body — the stage keeps `performed=true` and an
enriched description, but `"BODY3UNIQUE"` does not appear in it, refuting
"the successful bodies are reflected". -/
theorem contentFetchClaimStated_false : ¬ contentFetchClaimStated := by
  intro h
  obtain ⟨-, h2⟩ := h c6WebSearchInfo c6FetchOracle c6SearchResults rfl rfl (by decide)
  obtain ⟨h3, -⟩ := h2 c6FetchResults (by decide)
  obtain ⟨d, hd, hall⟩ := h3 (by decide)
  have hr3 := hall c6ResultThird (by decide) rfl
  have hdc : (enrich_with_content_fetch true c6FetchOracle c6WebSearchInfo).1.content_enriched_description =
      some "WEB\n\n[본문 내용 추가 정보]\n제목: T2\n내용: BODY2\n출처: https://b.com\n---\n제목: T3" := by
    decide
  rw [hdc] at hd
  injection hd with hd'
  rw [← hd'] at hr3
  exact absurd hr3 (by decide)

/-- Claim C6 as amended: whenever the web search was performed with a
result dictionary, the content stage reports `performed=true` whatever the
per-URL outcomes — a failed URL never fails the stage; when at least one
fetch succeeds the enriched description is built (through the 5-entry
snippet cap and 3000-character truncation) from the successful fetches'
titles, 500-capped bodies and source URLs; when none succeeds there is no
enrichment; failed fetches contribute nothing to the snippets. -/
theorem content_fetch_failure_tolerance (ws : WebSearchInfo) (fetchO : String → FetchRaw)
    (sr : SearchResults) (h1 : ws.performed = true) (h2 : ws.search_results = some sr) :
    (enrich_with_content_fetch true fetchO ws).1.performed = true ∧
    (∀ results, (enrich_with_content_fetch true fetchO ws).1.fetch_results = some results →
      (results.any (·.success) = true →
        (enrich_with_content_fetch true fetchO ws).1.content_enriched_description =
          enrich_description_with_content_data ws.enriched_description
            (extract_content_snippets results 5)) ∧
      (results.any (·.success) = false →
        (enrich_with_content_fetch true fetchO ws).1.content_enriched_description = none)) ∧
    (∀ results n, extract_content_snippets results n =
      extract_content_snippets (results.filter (·.success)) n) := by
  have hmain : (enrich_with_content_fetch true fetchO ws).1 =
      (if ((fetch_artwork_urls fetchO sr 3).1 ≠ [] &&
            (fetch_artwork_urls fetchO sr 3).1.any (·.success)) = true then
        { performed := true, fetch_results := some (fetch_artwork_urls fetchO sr 3).1,
          content_enriched_description := enrich_description_with_content_data
            ws.enriched_description
            (extract_content_snippets (fetch_artwork_urls fetchO sr 3).1 5) }
      else { performed := true, fetch_results := some (fetch_artwork_urls fetchO sr 3).1,
             content_enriched_description := none }) := by
    unfold enrich_with_content_fetch
    rw [h2, h1]
    rcases hfa : fetch_artwork_urls fetchO sr 3 with ⟨fr, flog⟩
    simp only [hfa]
    rw [if_neg (by decide)]
    split <;> rfl
  rw [hmain]
  refine ⟨?_, ?_, fun results n => extract_snippets_success_only results n⟩
  · split <;> rfl
  · intro results hres
    by_cases hcond : ((fetch_artwork_urls fetchO sr 3).1 ≠ [] &&
        (fetch_artwork_urls fetchO sr 3).1.any (·.success)) = true
    · rw [if_pos hcond] at hres ⊢
      simp only [Option.some.injEq] at hres
      subst hres
      rw [Bool.and_eq_true] at hcond
      exact ⟨fun _ => rfl, fun hf => by rw [hcond.2] at hf; cases hf⟩
    · rw [if_neg hcond] at hres ⊢
      simp only [Option.some.injEq] at hres
      subst hres
      refine ⟨fun hany => ?_, fun _ => rfl⟩
      exfalso
      apply hcond
      rw [Bool.and_eq_true]
      refine ⟨?_, hany⟩
      simp only [ne_eq, decide_eq_true_eq]
      intro hnil
      rw [hnil] at hany
      cases hany

/-- Witness for C6 (amended): the three-URL world with one failing fetch —
the stage performs, and the description equation and snippet
failure-invariance hold at this concrete input. -/
theorem content_fetch_failure_tolerance_witness :
    (enrich_with_content_fetch true c6FetchOracle c6WebSearchInfo).1.performed = true ∧
    (∀ results, (enrich_with_content_fetch true c6FetchOracle
        c6WebSearchInfo).1.fetch_results = some results →
      (results.any (·.success) = true →
        (enrich_with_content_fetch true c6FetchOracle
            c6WebSearchInfo).1.content_enriched_description =
          enrich_description_with_content_data c6WebSearchInfo.enriched_description
            (extract_content_snippets results 5)) ∧
      (results.any (·.success) = false →
        (enrich_with_content_fetch true c6FetchOracle
            c6WebSearchInfo).1.content_enriched_description = none)) ∧
    (∀ results n, extract_content_snippets results n =
      extract_content_snippets (results.filter (·.success)) n) :=
  content_fetch_failure_tolerance c6WebSearchInfo c6FetchOracle c6SearchResults rfl rfl
